import Mathlib

/-!
The Docker check and PostgreSQL connection-test scripts

A shallow embedding of `scripts/check-docker.js` and `scripts/test-postgres.js`.

Both scripts are straight-line programs over a handful of Node primitives
(`console.log`, `execSync`, `os.platform`, `setTimeout`, `spawn`,
`process.exit`).  A script is embedded as a function from the environment
(`World`: what the operating system answers to each external command) and the
trace of effects performed so far to an outcome and the extended trace.
-/

namespace Node

/-! ## JavaScript strings

Strings are modelled by Lean strings (sequences of code points).  The needles
searched for by the scripts are ASCII, so searching code points agrees with
JavaScript's search over UTF-16 code units. -/

/-- Does `needle` match at the very start of `hay`? -/
def matchesAt : List Char → List Char → Bool
  | [], _ => true
  | _ :: _, [] => false
  | c :: cs, d :: ds => c == d && matchesAt cs ds

/-- Does `needle` match at some position of `hay`? -/
def matchesFrom (needle : List Char) : List Char → Bool
  | [] => matchesAt needle []
  | d :: ds => matchesAt needle (d :: ds) || matchesFrom needle ds

/-- JavaScript `String.prototype.includes`: `s.includes(needle)`. -/
def includes (s needle : String) : Bool :=
  matchesFrom needle.toList s.toList

/-- JavaScript `String.prototype.repeat`: `s.repeat(n)`. -/
def stringRepeat (s : String) : Nat → String
  | 0 => ""
  | n + 1 => s ++ stringRepeat s n

/-- ECMAScript `WhiteSpace` and `LineTerminator` code points, the characters
that `String.prototype.trim` strips. -/
def isWhiteSpace (c : Char) : Bool :=
  let n := c.toNat
  n == 0x09 || n == 0x0A || n == 0x0B || n == 0x0C || n == 0x0D || n == 0x20 ||
  n == 0xA0 || n == 0x1680 || (0x2000 ≤ n && n ≤ 0x200A) || n == 0x2028 ||
  n == 0x2029 || n == 0x202F || n == 0x205F || n == 0x3000 || n == 0xFEFF

/-- JavaScript `String.prototype.trim`: `s.trim()`. -/
def trim (s : String) : String :=
  String.mk ((s.toList.dropWhile isWhiteSpace).reverse.dropWhile isWhiteSpace).reverse

/-! ## Effects and the environment -/

/-- The `stdio`/`encoding` option passed to `execSync`. -/
inductive Stdio
  | ignore
  | inherit
  | utf8
deriving DecidableEq, Repr

/-- An observable effect of a script. -/
inductive Event
  /-- A line written by `console.log(line)`. -/
  | print (line : String)
  /-- A command run by `execSync(command, options)`. -/
  | execSync (command : String) (stdio : Stdio)
  /-- A suspension `await new Promise(resolve => setTimeout(resolve, ms))`. -/
  | setTimeout (ms : Nat)
  /-- A child process started by `spawn(command, args)`. -/
  | spawn (command : String) (args : List String)
deriving DecidableEq, Repr

/-- What `execSync` does with a command: it returns the command's standard
output, or throws an error with a message (non-zero exit status or spawn
failure). -/
inductive ExecResult
  | ok (stdout : String)
  | failed (message : String)
deriving DecidableEq, Repr

/-- Did the command complete without throwing? -/
def ExecResult.isOk : ExecResult → Bool
  | .ok _ => true
  | .failed _ => false

/-- A `data` event of a spawned child: the text `data.toString()` of one chunk
arriving on its standard output or its standard error. -/
inductive ChildData
  | stdout (data : String)
  | stderr (data : String)
deriving DecidableEq, Repr

/-- The life of a spawned child process: its `data` events in arrival order and
the code of its `close` event (`null`, here `none`, when a signal ended it). -/
structure ChildRun where
  chunks : List ChildData
  code : Option Int
deriving DecidableEq, Repr

/-- The environment of one run.  `exec command k` is what the `k`-th call
(counting from 0) of `execSync` with `command` does; `platform` is the value of
`os.platform()`; `child` is the life of the process started by `spawn`. -/
structure World where
  platform : String
  exec : String → Nat → ExecResult
  child : ChildRun

/-- How a piece of script ends: it returns a value, throws an error with a
message, or terminates the process through `process.exit(code)`. -/
inductive Outcome (α : Type)
  | ret (a : α)
  | throw (message : String)
  | exit (code : Nat)
deriving DecidableEq, Repr

/-- A piece of script: from the environment and the trace so far to an outcome
and the trace extended by the effects performed. -/
def Prog (α : Type) : Type := World → List Event → Outcome α × List Event

/-- Return a value without any effect. -/
def Prog.pure {α : Type} (a : α) : Prog α := fun _ t => (.ret a, t)

/-- Sequencing: a throw or a process exit skips what follows. -/
def Prog.bind {α β : Type} (m : Prog α) (f : α → Prog β) : Prog β := fun w t =>
  match m w t with
  | (.ret a, t1) => f a w t1
  | (.throw e, t1) => (.throw e, t1)
  | (.exit c, t1) => (.exit c, t1)

instance : Monad Prog where
  pure := Prog.pure
  bind := Prog.bind

/-- Append one effect to the trace. -/
def emit (e : Event) : Prog Unit := fun _ t => (.ret (), t ++ [e])

/-- JavaScript `console.log(line)`. -/
def consoleLog (line : String) : Prog Unit := emit (.print line)

/-- How many times `execSync` has run `command` in the trace `t`. -/
def calls (command : String) (t : List Event) : Nat :=
  t.countP (fun e => match e with
    | .execSync c _ => c == command
    | _ => false)

/-- JavaScript `execSync(command, options)`: runs the command; returns its output or
throws. -/
def execSync (command : String) (stdio : Stdio) : Prog String := fun w t =>
  match w.exec command (calls command t) with
  | .ok out => (.ret out, t ++ [.execSync command stdio])
  | .failed message => (.throw message, t ++ [.execSync command stdio])

/-- JavaScript `process.exit(code)`. -/
def processExit {α : Type} (code : Nat) : Prog α := fun _ t => (.exit code, t)

/-- JavaScript `throw new Error(message)`. -/
def raise {α : Type} (message : String) : Prog α := fun _ t => (.throw message, t)

/-- JavaScript `try { body } catch (error) { handler(error.message) }`. -/
def attempt {α : Type} (body : Prog α) (handler : String → Prog α) : Prog α := fun w t =>
  match body w t with
  | (.throw e, t1) => handler e w t1
  | r => r

/-- JavaScript `os.platform()`. -/
def osPlatform : Prog String := fun w t => (.ret w.platform, t)

/-- JavaScript `await new Promise((resolve) => setTimeout(resolve, ms))`. -/
def sleep (ms : Nat) : Prog Unit := emit (.setTimeout ms)

/-- JavaScript `spawn(command, args)`: starts the child process; the handle gives its
`data` events and its `close` code. -/
def spawn (command : String) (args : List String) : Prog ChildRun := fun w t =>
  (.ret w.child, t ++ [.spawn command args])

/-- JavaScript `xs.forEach(f)`. -/
def forEach {α : Type} : List α → (α → Prog Unit) → Prog Unit
  | [], _ => Prog.pure ()
  | x :: xs, f => Prog.bind (f x) (fun _ => forEach xs f)

/-- What the call `main()` evaluates to: `undefined` for a plain function that
falls off its end, a settled promise (rejected with a message, or fulfilled)
for an `async` function. -/
inductive JSValue
  | undefined
  | promise (rejection : Option String)
deriving DecidableEq, Repr

/-- Calling an `async` function: a throw in the body becomes a rejected
promise, a normal end a fulfilled one. -/
def async (body : Prog Unit) : Prog JSValue := fun w t =>
  match body w t with
  | (.ret _, t1) => (.ret (.promise none), t1)
  | (.throw e, t1) => (.ret (.promise (some e)), t1)
  | (.exit c, t1) => (.exit c, t1)

/-- The expression `value.catch(handler)`: reading a property of `undefined`
throws a `TypeError`; on a promise the handler runs when it is rejected. -/
def catchMethod : JSValue → (String → Prog Unit) → Prog Unit
  | .undefined, _ => raise "Cannot read properties of undefined (reading 'catch')"
  | .promise none, _ => Prog.pure ()
  | .promise (some e), handler => handler e

/-- One run of a script as seen from outside: its trace and its exit code. -/
structure Run where
  trace : List Event
  exitCode : Nat
deriving DecidableEq, Repr

/-- Running a script file with `node`: the exit code is the argument of
`process.exit`, 1 when an exception is uncaught, 0 when the script ends. -/
def node (script : Prog Unit) (w : World) : Run :=
  match script w [] with
  | (.ret _, t) => ⟨t, 0⟩
  | (.throw _, t) => ⟨t, 1⟩
  | (.exit c, t) => ⟨t, c⟩

/-- The lines printed in a trace, in order. -/
def printed (t : List Event) : List String :=
  t.filterMap (fun e => match e with
    | .print line => some line
    | _ => none)

/-- The effects of a trace other than printing, in order. -/
def actions (t : List Event) : List Event :=
  t.filter (fun e => match e with
    | .print _ => false
    | _ => true)

/-- Concatenation of a list of texts, in order. -/
def concat : List String → String
  | [] => ""
  | s :: ss => s ++ concat ss

/-- The standard-output chunks of a child, in arrival order. -/
def ChildRun.stdoutChunks (c : ChildRun) : List String :=
  c.chunks.filterMap (fun d => match d with
    | .stdout data => some data
    | .stderr _ => none)

/-- The standard-error chunks of a child, in arrival order. -/
def ChildRun.stderrChunks (c : ChildRun) : List String :=
  c.chunks.filterMap (fun d => match d with
    | .stdout _ => none
    | .stderr data => some data)

end Node

namespace CheckDocker
open Node

/-- The `colors` table of `check-docker.js`. -/
inductive Color
  | reset
  | green
  | red
  | yellow
  | blue
  | cyan
deriving DecidableEq, Repr

/-- The escape sequence of a colour. -/
def colors : Color → String
  | .reset => "\x1b[0m"
  | .green => "\x1b[32m"
  | .red => "\x1b[31m"
  | .yellow => "\x1b[33m"
  | .blue => "\x1b[34m"
  | .cyan => "\x1b[36m"

/-- The line `log(message, color)` writes. -/
def colored (message : String) (color : Color) : String :=
  colors color ++ message ++ colors .reset

/-- JavaScript `log(message, color)`. -/
def log (message : String) (color : Color) : Prog Unit :=
  consoleLog (colored message color)

/-- JavaScript `checkDocker()`. -/
def checkDocker : Prog Bool :=
  attempt (do
    let _ ← execSync "docker --version" .ignore
    pure true)
    (fun _ => pure false)

/-- JavaScript `checkDockerCompose()`. -/
def checkDockerCompose : Prog Bool :=
  attempt (do
    let _ ← execSync "docker compose version" .ignore
    pure true)
    (fun _ => pure false)

/-- JavaScript `checkDockerRunning()`. -/
def checkDockerRunning : Prog Bool :=
  attempt (do
    let _ ← execSync "docker info" .ignore
    pure true)
    (fun _ => pure false)

/-- The record returned by `getInstallInstructions`. -/
structure Instructions where
  title : String
  steps : List String
  downloadUrl : String
deriving DecidableEq, Repr

/-- The record of the `win32` branch. -/
def windowsInstructions : Instructions where
  title := "Install Docker Desktop for Windows"
  steps := [
    "1. Download Docker Desktop:",
    "   https://www.docker.com/products/docker-desktop/",
    "",
    "2. Run the installer (Docker Desktop Installer.exe)",
    "",
    "3. Follow the installation wizard",
    "",
    "4. Restart your computer if prompted",
    "",
    "5. Start Docker Desktop from the Start menu",
    "",
    "6. Wait for Docker Desktop to fully start (whale icon in system tray)",
    "",
    "7. Run this command again: pnpm postgres:up"]
  downloadUrl := "https://desktop.docker.com/win/main/amd64/Docker%20Desktop%20Installer.exe"

/-- The record of the `darwin` branch. -/
def macInstructions : Instructions where
  title := "Install Docker Desktop for Mac"
  steps := [
    "1. Download Docker Desktop:",
    "   https://www.docker.com/products/docker-desktop/",
    "",
    "2. Open the downloaded .dmg file",
    "",
    "3. Drag Docker to Applications folder",
    "",
    "4. Open Docker from Applications",
    "",
    "5. Wait for Docker Desktop to fully start",
    "",
    "6. Run this command again: pnpm postgres:up"]
  downloadUrl := "https://desktop.docker.com/mac/main/amd64/Docker.dmg"

/-- The record of the final `else` branch. -/
def linuxInstructions : Instructions where
  title := "Install Docker for Linux"
  steps := [
    "1. Install Docker Engine:",
    "   Ubuntu/Debian:",
    "   sudo apt-get update",
    "   sudo apt-get install docker.io docker-compose",
    "",
    "2. Start Docker service:",
    "   sudo systemctl start docker",
    "   sudo systemctl enable docker",
    "",
    "3. Add your user to docker group (optional):",
    "   sudo usermod -aG docker $USER",
    "   (logout and login again)",
    "",
    "4. Run this command again: pnpm postgres:up"]
  downloadUrl := "https://docs.docker.com/engine/install/"

/-- The branch of `getInstallInstructions` on the value of `platform`. -/
def selectInstructions (platform : String) : Instructions :=
  if platform = "win32" then windowsInstructions
  else if platform = "darwin" then macInstructions
  else linuxInstructions

/-- JavaScript `getInstallInstructions()`. -/
def getInstallInstructions : Prog Instructions := do
  let platform ← osPlatform
  pure (selectInstructions platform)

/-- JavaScript `main()` of `check-docker.js`, a plain (not `async`) function. -/
def main : Prog JSValue := do
  log "\n🐳 Docker Installation Check\n" .blue
  log "Checking Docker installation..." .yellow
  let dockerInstalled ← checkDocker
  if !dockerInstalled then
    log "❌ Docker is not installed" .red
    log ("\n" ++ stringRepeat "=" 60) .cyan
    let instructions ← getInstallInstructions
    log ("\n" ++ instructions.title) .yellow
    log "\nSteps:" .cyan
    forEach instructions.steps (fun step => log ("  " ++ step) .blue)
    log ("\n" ++ stringRepeat "=" 60) .cyan
    log "\n💡 Quick Install:" .yellow
    log ("   Download: " ++ instructions.downloadUrl) .blue
    log "\n📚 Documentation:" .yellow
    log "   https://docs.docker.com/get-docker/" .blue
    log "\n" .reset
    processExit 1
  log "✅ Docker is installed" .green
  let dockerComposeAvailable ← checkDockerCompose
  if dockerComposeAvailable then
    log "✅ Docker Compose is available" .green
  else
    log "⚠️  Docker Compose not found (using docker-compose)" .yellow
  log "\nChecking Docker daemon..." .yellow
  let dockerRunning ← checkDockerRunning
  if !dockerRunning then
    log "❌ Docker is not running" .red
    log "\nPlease start Docker Desktop:" .yellow
    log "  - Windows: Search for \"Docker Desktop\" in Start menu" .blue
    log "  - Mac: Open Docker from Applications" .blue
    log "  - Linux: sudo systemctl start docker" .blue
    log "\nWait for Docker to fully start, then try again.\n" .yellow
    processExit 1
  log "✅ Docker is running" .green
  attempt (do
    let version ← execSync "docker --version" .utf8
    log ("\n📦 " ++ trim version) .cyan)
    (fun _ => pure ())
  log "\n✅ Docker is ready to use!" .green
  log "\nYou can now run:" .yellow
  log "  pnpm postgres:up    - Start PostgreSQL" .blue
  log "  pnpm postgres:test  - Test PostgreSQL connection" .blue
  log "\n" .reset
  pure .undefined

/-- The entry point of `check-docker.js`: `main().catch((error) => ...)`. -/
def script : Prog Unit := do
  let value ← main
  catchMethod value (fun message => do
    log ("\n❌ Error: " ++ message) .red
    processExit 1)

/-- A run where Docker is installed and its daemon answers. -/
def healthy : World where
  platform := "linux"
  exec := fun _ _ => .ok "Docker version 24.0.7, build afdd53b\n"
  child := ⟨[], none⟩

/-- A run on Windows where the `docker` command is missing. -/
def notInstalled : World where
  platform := "win32"
  exec := fun command _ => .failed ("Command failed: " ++ command)
  child := ⟨[], none⟩

/-- A run on a Mac where Docker is installed but its daemon is down. -/
def daemonDown : World where
  platform := "darwin"
  exec := fun command _ =>
    if command = "docker info" then .failed "Command failed: docker info"
    else .ok "Docker version 24.0.7, build afdd53b\n"
  child := ⟨[], none⟩

/-- A run on a platform the script has no branch for. -/
def freebsd : World where
  platform := "freebsd"
  exec := fun _ _ => .ok "Docker version 24.0.7, build afdd53b\n"
  child := ⟨[], none⟩

end CheckDocker

namespace TestPostgres
open Node

/-- The `colors` table of `test-postgres.js`. -/
inductive Color
  | reset
  | green
  | red
  | yellow
  | blue
deriving DecidableEq, Repr

/-- The escape sequence of a colour. -/
def colors : Color → String
  | .reset => "\x1b[0m"
  | .green => "\x1b[32m"
  | .red => "\x1b[31m"
  | .yellow => "\x1b[33m"
  | .blue => "\x1b[34m"

/-- The line `log(message, color)` writes. -/
def colored (message : String) (color : Color) : String :=
  colors color ++ message ++ colors .reset

/-- JavaScript `log(message, color)`. -/
def log (message : String) (color : Color) : Prog Unit :=
  consoleLog (colored message color)

/-- JavaScript `checkDocker()`. -/
def checkDocker : Prog Bool :=
  attempt (do
    let _ ← execSync "docker --version" .ignore
    pure true)
    (fun _ => pure false)

/-- JavaScript `checkPostgresRunning()`. -/
def checkPostgresRunning : Prog Bool :=
  attempt (do
    let output ← execSync "docker compose ps postgres" .utf8
    pure (includes output "8no-ai-postgres" && includes output "Up"))
    (fun _ => pure false)

/-- What `checkPostgresRunning` makes of the result of its `execSync` call: the
`return` of the `try` block on an output, `false` of the `catch` block on a
throw. -/
def reportsRunning : ExecResult → Bool
  | .ok output => includes output "8no-ai-postgres" && includes output "Up"
  | .failed _ => false

/-- The value `testConnection` resolves with. -/
structure ConnectionResult where
  success : Bool
  output : String
  error : String
deriving DecidableEq, Repr

/-- The variables `output` and `errorOutput` of `testConnection`. -/
structure Capture where
  output : String
  errorOutput : String
deriving DecidableEq, Repr

/-- The two `data` listeners of `testConnection`. -/
def onData (acc : Capture) : ChildData → Capture
  | .stdout data => { acc with output := acc.output ++ data }
  | .stderr data => { acc with errorOutput := acc.errorOutput ++ data }

/-- The `close` listener of `testConnection`. -/
def onClose (acc : Capture) (code : Option Int) : ConnectionResult where
  success := code == some 0
  output := acc.output
  error := acc.errorOutput

/-- The arguments of the `docker` child process. -/
def psqlArgs : List String :=
  ["compose", "exec", "-T", "postgres", "psql", "-U", "postgres", "-d", "8noai_db",
    "-c", "SELECT version();"]

/-- JavaScript `testConnection()`, awaited: the listeners run over the `data` events in
arrival order, then the `close` listener resolves the promise. -/
def testConnection : Prog ConnectionResult := do
  let psql ← spawn "docker" psqlArgs
  pure (onClose (psql.chunks.foldl onData ⟨"", ""⟩) psql.code)

/-- The body of `async function main()` of `test-postgres.js`. -/
def mainBody : Prog Unit := do
  log "\n🔍 PostgreSQL Connection Test\n" .blue
  log "1. Checking Docker installation..." .yellow
  if !(← checkDocker) then
    log "   ❌ Docker is not installed or not in PATH" .red
    log "\n   Please run: pnpm postgres:check" .yellow
    log "   This will show installation instructions.\n" .blue
    processExit 1
  log "   ✅ Docker is installed" .green
  log "\n2. Checking PostgreSQL container status..." .yellow
  if !(← checkPostgresRunning) then
    log "   ⚠️  PostgreSQL container is not running" .yellow
    log "   Attempting to start PostgreSQL..." .yellow
    attempt (do
      let _ ← execSync "docker compose up -d postgres" .inherit
      log "   ⏳ Waiting for PostgreSQL to be ready..." .yellow
      sleep 5000
      if !(← checkPostgresRunning) then
        log "   ❌ Failed to start PostgreSQL" .red
        log "   Try running: pnpm postgres:logs" .yellow
        processExit 1
      log "   ✅ PostgreSQL container started" .green)
      (fun message => do
        log "   ❌ Error starting PostgreSQL" .red
        log ("   " ++ message) .red
        processExit 1)
  else
    log "   ✅ PostgreSQL container is running" .green
  log "\n3. Testing database connection..." .yellow
  let result ← testConnection
  if result.success then
    log "   ✅ Connection successful!" .green
    log "\n📊 PostgreSQL Information:" .blue
    consoleLog result.output
    log "\n✅ All tests passed! PostgreSQL is ready to use.\n" .green
    log "Connection details:" .blue
    log "  Host: localhost" .blue
    log "  Port: 5432" .blue
    log "  Database: 8noai_db" .blue
    log "  Username: postgres" .blue
    log "  Password: postgres" .blue
    log "\nUseful commands:" .blue
    log "  pnpm postgres:shell  - Open PostgreSQL shell" .blue
    log "  pnpm postgres:logs   - View PostgreSQL logs" .blue
    log "  pnpm postgres:status - Check container status" .blue
    log "  pnpm postgres:stop   - Stop PostgreSQL\n" .blue
  else
    log "   ❌ Connection failed" .red
    log ("   Error: " ++ result.error) .red
    log "\n   Troubleshooting:" .yellow
    log "   1. Check logs: pnpm postgres:logs" .yellow
    log "   2. Restart: pnpm postgres:restart" .yellow
    log "   3. Check status: pnpm postgres:status\n" .yellow
    processExit 1

/-- JavaScript `main()` of `test-postgres.js`, an `async` function. -/
def main : Prog JSValue := async mainBody

/-- The entry point of `test-postgres.js`: `main().catch((error) => ...)`. -/
def script : Prog Unit := do
  let value ← main
  catchMethod value (fun message => do
    log ("\n❌ Unexpected error: " ++ message) .red
    processExit 1)

/-- The five connection-parameter lines of the success report. -/
def connectionLines : List String :=
  [colored "  Host: localhost" .blue, colored "  Port: 5432" .blue,
    colored "  Database: 8noai_db" .blue, colored "  Username: postgres" .blue,
    colored "  Password: postgres" .blue]

/-- The three troubleshooting lines of the failure report. -/
def troubleshootingLines : List String :=
  [colored "   1. Check logs: pnpm postgres:logs" .yellow,
    colored "   2. Restart: pnpm postgres:restart" .yellow,
    colored "   3. Check status: pnpm postgres:status\n" .yellow]

/-- What the `if (result.success)` branch of `main` prints for a captured
standard output. -/
def successReport (output : String) : List Event :=
  [.print (colored "   ✅ Connection successful!" .green),
    .print (colored "\n📊 PostgreSQL Information:" .blue),
    .print output,
    .print (colored "\n✅ All tests passed! PostgreSQL is ready to use.\n" .green),
    .print (colored "Connection details:" .blue)]
    ++ connectionLines.map .print ++
    [.print (colored "\nUseful commands:" .blue),
    .print (colored "  pnpm postgres:shell  - Open PostgreSQL shell" .blue),
    .print (colored "  pnpm postgres:logs   - View PostgreSQL logs" .blue),
    .print (colored "  pnpm postgres:status - Check container status" .blue),
    .print (colored "  pnpm postgres:stop   - Stop PostgreSQL\n" .blue)]

/-- What the `else` branch of `if (result.success)` prints for a captured
standard error. -/
def failureReport (error : String) : List Event :=
  [.print (colored "   ❌ Connection failed" .red),
    .print (colored ("   Error: " ++ error) .red),
    .print (colored "\n   Troubleshooting:" .yellow)]
    ++ troubleshootingLines.map .print

/-- What follows the spawn of the query child in a trace: the report chosen by
the close code. -/
def report (child : ChildRun) : List Event :=
  if child.code = some 0 then successReport (concat child.stdoutChunks)
  else failureReport (concat child.stderrChunks)

/-- A run where the container is already up and the query succeeds. -/
def alreadyUp : World where
  platform := "linux"
  exec := fun command _ =>
    if command = "docker compose ps postgres" then .ok "... 8no-ai-postgres ... Up 3 minutes"
    else .ok ""
  child := ⟨[.stdout "PostgreSQL 15.2 ..."], some 0⟩

/-- A run where the container has exited and starting it does not help. -/
def exited : World where
  platform := "linux"
  exec := fun command _ =>
    if command = "docker compose ps postgres" then .ok "8no-ai-postgres Exited (1)"
    else .ok ""
  child := ⟨[], none⟩

/-- A run where the container is down and the start command fails. -/
def startFails : World where
  platform := "linux"
  exec := fun command _ =>
    if command = "docker compose up -d postgres" then
      .failed "Command failed: docker compose up -d postgres"
    else .ok ""
  child := ⟨[], none⟩

/-- A run where the container is up after a start and the query is refused. -/
def authFails : World where
  platform := "linux"
  exec := fun command k =>
    if command = "docker compose ps postgres" then
      (if k = 0 then .ok "" else .ok "8no-ai-postgres   Up 2 seconds")
    else .ok ""
  child := ⟨[.stderr "FATAL: password ", .stderr "authentication failed"], some 1⟩

/-- A run where the `docker` command is missing. -/
def noDocker : World where
  platform := "linux"
  exec := fun command _ => .failed ("Command failed: " ++ command)
  child := ⟨[.stdout "PostgreSQL 15.2 ..."], some 0⟩

end TestPostgres


/-! ## Evaluation rules of the script primitives -/

namespace Node

/-- The function `matchesAt` decides whether `needle` is a leading segment of `hay`. -/
theorem matchesAt_iff (needle hay : List Char) :
    matchesAt needle hay = true ↔ ∃ post, hay = needle ++ post := by
  induction needle generalizing hay with
  | nil => simp [matchesAt]
  | cons c cs ih =>
    cases hay with
    | nil => simp [matchesAt]
    | cons d ds =>
      simp only [matchesAt, Bool.and_eq_true, beq_iff_eq, ih, List.cons_append, List.cons.injEq]
      constructor
      · rintro ⟨rfl, post, rfl⟩
        exact ⟨post, rfl, rfl⟩
      · rintro ⟨post, rfl, rfl⟩
        exact ⟨rfl, post, rfl⟩

/-- The function `matchesFrom` decides whether `needle` is a contiguous segment of `hay`. -/
theorem matchesFrom_iff (needle hay : List Char) :
    matchesFrom needle hay = true ↔ ∃ pre post, hay = pre ++ needle ++ post := by
  induction hay with
  | nil =>
    simp only [matchesFrom, matchesAt_iff]
    constructor
    · rintro ⟨post, h⟩
      exact ⟨[], post, by simpa using h⟩
    · rintro ⟨pre, post, h⟩
      have h1 : needle = [] := by
        cases needle with
        | nil => rfl
        | cons c cs => simp at h
      exact ⟨[], by simp [h1]⟩
  | cons d ds ih =>
    simp only [matchesFrom, Bool.or_eq_true, matchesAt_iff, ih]
    constructor
    · rintro (⟨post, h⟩ | ⟨pre, post, h⟩)
      · exact ⟨[], post, by simpa using h⟩
      · exact ⟨d :: pre, post, by simp [h]⟩
    · rintro ⟨pre, post, h⟩
      cases pre with
      | nil => exact Or.inl ⟨post, by simpa using h⟩
      | cons e pre =>
        simp only [List.cons_append, List.cons.injEq] at h
        exact Or.inr ⟨pre, post, h.2⟩

/-- The test `s.includes(needle)` holds exactly when `needle` occurs in `s` as a
contiguous run of characters. -/
theorem includes_iff (s needle : String) :
    includes s needle = true ↔ ∃ pre post, s.toList = pre ++ needle.toList ++ post :=
  matchesFrom_iff _ _

@[simp] theorem bind_apply {α β : Type} (m : Prog α) (f : α → Prog β) (w : World)
    (t : List Event) :
    (m >>= f) w t = match m w t with
      | (.ret a, t1) => f a w t1
      | (.throw e, t1) => (.throw e, t1)
      | (.exit c, t1) => (.exit c, t1) := rfl

@[simp] theorem pure_apply {α : Type} (a : α) (w : World) (t : List Event) :
    (pure a : Prog α) w t = (.ret a, t) := rfl

@[simp] theorem processExit_apply {α : Type} (c : Nat) (w : World) (t : List Event) :
    (processExit c : Prog α) w t = (.exit c, t) := rfl

@[simp] theorem raise_apply {α : Type} (m : String) (w : World) (t : List Event) :
    (raise m : Prog α) w t = (.throw m, t) := rfl

@[simp] theorem consoleLog_apply (line : String) (w : World) (t : List Event) :
    consoleLog line w t = (.ret (), t ++ [.print line]) := rfl

@[simp] theorem sleep_apply (ms : Nat) (w : World) (t : List Event) :
    sleep ms w t = (.ret (), t ++ [.setTimeout ms]) := rfl

@[simp] theorem spawn_apply (c : String) (args : List String) (w : World) (t : List Event) :
    spawn c args w t = (.ret w.child, t ++ [.spawn c args]) := rfl

@[simp] theorem osPlatform_apply (w : World) (t : List Event) :
    osPlatform w t = (.ret w.platform, t) := rfl

@[simp] theorem calls_nil (c : String) : calls c [] = 0 := rfl

@[simp] theorem calls_append (c : String) (t u : List Event) :
    calls c (t ++ u) = calls c t + calls c u := by
  simp [calls]

@[simp] theorem calls_print (c line : String) (t : List Event) :
    calls c (.print line :: t) = calls c t := by
  simp [calls]

@[simp] theorem calls_setTimeout (c : String) (ms : Nat) (t : List Event) :
    calls c (.setTimeout ms :: t) = calls c t := by
  simp [calls]

@[simp] theorem calls_spawn (c d : String) (args : List String) (t : List Event) :
    calls c (.spawn d args :: t) = calls c t := by
  simp [calls]

@[simp] theorem calls_execSync (c d : String) (io : Stdio) (t : List Event) :
    calls c (.execSync d io :: t) = (if d = c then 1 else 0) + calls c t := by
  by_cases h : d = c <;> simp [calls, h, Nat.add_comm]

/-- A guarded call of `execSync` whose result is discarded, as in `checkDocker`:
it returns whether the command completed, and never throws. -/
theorem probe_apply (command : String) (io : Stdio) (w : World) (t : List Event) :
    attempt (do
        let _ ← execSync command io
        pure true) (fun _ => pure false) w t
      = (.ret (w.exec command (calls command t)).isOk, t ++ [.execSync command io]) := by
  unfold attempt execSync
  cases h : w.exec command (calls command t) <;> simp [h, ExecResult.isOk]

@[simp] theorem actions_nil : actions [] = [] := rfl

@[simp] theorem actions_append (t u : List Event) :
    actions (t ++ u) = actions t ++ actions u := by
  simp [actions]

@[simp] theorem actions_print (line : String) (t : List Event) :
    actions (.print line :: t) = actions t := by
  simp [actions]

@[simp] theorem actions_execSync (c : String) (io : Stdio) (t : List Event) :
    actions (.execSync c io :: t) = .execSync c io :: actions t := by
  simp [actions]

@[simp] theorem actions_setTimeout (ms : Nat) (t : List Event) :
    actions (.setTimeout ms :: t) = .setTimeout ms :: actions t := by
  simp [actions]

@[simp] theorem actions_spawn (c : String) (args : List String) (t : List Event) :
    actions (.spawn c args :: t) = .spawn c args :: actions t := by
  simp [actions]

theorem actions_map_print {α : Type} (f : α → String) (xs : List α) :
    actions (xs.map (fun x => Event.print (f x))) = [] := by
  induction xs with
  | nil => rfl
  | cons x xs ih => simp [ih]

@[simp] theorem printed_nil : printed [] = [] := rfl

@[simp] theorem printed_append (t u : List Event) :
    printed (t ++ u) = printed t ++ printed u := by
  simp [printed]

@[simp] theorem printed_print (line : String) (t : List Event) :
    printed (.print line :: t) = line :: printed t := by
  simp [printed]

@[simp] theorem printed_execSync (c : String) (io : Stdio) (t : List Event) :
    printed (.execSync c io :: t) = printed t := by
  simp [printed]

@[simp] theorem printed_setTimeout (ms : Nat) (t : List Event) :
    printed (.setTimeout ms :: t) = printed t := by
  simp [printed]

@[simp] theorem printed_spawn (c : String) (args : List String) (t : List Event) :
    printed (.spawn c args :: t) = printed t := by
  simp [printed]

end Node

/-! ## The environment checker -/

namespace CheckDocker
open Node

@[simp] theorem log_apply (m : String) (c : Color) (w : World) (t : List Event) :
    log m c w t = (.ret (), t ++ [.print (colored m c)]) := rfl

/-- The call `checkDocker()` returns whether `docker --version` completed; it never
throws. -/
theorem checkDocker_apply (w : World) (t : List Event) :
    checkDocker w t = (.ret (w.exec "docker --version" (calls "docker --version" t)).isOk,
      t ++ [.execSync "docker --version" .ignore]) :=
  probe_apply _ _ w t

/-- The call `checkDockerCompose()` returns whether `docker compose version` completed. -/
theorem checkDockerCompose_apply (w : World) (t : List Event) :
    checkDockerCompose w t
      = (.ret (w.exec "docker compose version" (calls "docker compose version" t)).isOk,
      t ++ [.execSync "docker compose version" .ignore]) :=
  probe_apply _ _ w t

/-- The call `checkDockerRunning()` returns whether `docker info` completed. -/
theorem checkDockerRunning_apply (w : World) (t : List Event) :
    checkDockerRunning w t = (.ret (w.exec "docker info" (calls "docker info" t)).isOk,
      t ++ [.execSync "docker info" .ignore]) :=
  probe_apply _ _ w t

theorem forEach_log (f : String → String) (c : Color) (xs : List String) (w : World)
    (t : List Event) :
    forEach xs (fun step => log (f step) c) w t
      = (.ret (), t ++ xs.map (fun step => .print (colored (f step) c))) := by
  induction xs generalizing t with
  | nil => simp [forEach, Prog.pure]
  | cons x xs ih => simp [forEach, Prog.bind, ih]

/-- The whole run when the installed-check fails. -/
theorem run_notInstalled (w : World) (h : (w.exec "docker --version" 0).isOk = false) :
    node script w = ⟨[.print (colored "\n🐳 Docker Installation Check\n" .blue),
        .print (colored "Checking Docker installation..." .yellow),
        .execSync "docker --version" .ignore,
        .print (colored "❌ Docker is not installed" .red),
        .print (colored ("\n" ++ stringRepeat "=" 60) .cyan),
        .print (colored ("\n" ++ (selectInstructions w.platform).title) .yellow),
        .print (colored "\nSteps:" .cyan)]
        ++ (selectInstructions w.platform).steps.map
            (fun step => .print (colored ("  " ++ step) .blue))
        ++ [.print (colored ("\n" ++ stringRepeat "=" 60) .cyan),
        .print (colored "\n💡 Quick Install:" .yellow),
        .print (colored ("   Download: " ++ (selectInstructions w.platform).downloadUrl) .blue),
        .print (colored "\n📚 Documentation:" .yellow),
        .print (colored "   https://docs.docker.com/get-docker/" .blue),
        .print (colored "\n" .reset)], 1⟩ := by
  simp [node, script, main, checkDocker_apply, h, getInstallInstructions, forEach_log]

/-- The whole run when Docker is installed and the running-check fails. -/
theorem run_daemonDown (w : World) (h0 : (w.exec "docker --version" 0).isOk = true)
    (h1 : (w.exec "docker info" 0).isOk = false) :
    node script w = ⟨[.print (colored "\n🐳 Docker Installation Check\n" .blue),
        .print (colored "Checking Docker installation..." .yellow),
        .execSync "docker --version" .ignore,
        .print (colored "✅ Docker is installed" .green),
        .execSync "docker compose version" .ignore,
        .print (if (w.exec "docker compose version" 0).isOk = true
          then colored "✅ Docker Compose is available" .green
          else colored "⚠️  Docker Compose not found (using docker-compose)" .yellow),
        .print (colored "\nChecking Docker daemon..." .yellow),
        .execSync "docker info" .ignore,
        .print (colored "❌ Docker is not running" .red),
        .print (colored "\nPlease start Docker Desktop:" .yellow),
        .print (colored "  - Windows: Search for \"Docker Desktop\" in Start menu" .blue),
        .print (colored "  - Mac: Open Docker from Applications" .blue),
        .print (colored "  - Linux: sudo systemctl start docker" .blue),
        .print (colored "\nWait for Docker to fully start, then try again.\n" .yellow)], 1⟩ := by
  cases hc : (w.exec "docker compose version" 0).isOk <;>
    simp [node, script, main, checkDocker_apply, checkDockerCompose_apply,
      checkDockerRunning_apply, h0, h1, hc]

/-- The whole run when Docker is installed and running: `main` prints its
report and returns `undefined`, and the entry point then fails on
`undefined.catch`. -/
theorem run_ready (w : World) (h0 : (w.exec "docker --version" 0).isOk = true)
    (h1 : (w.exec "docker info" 0).isOk = true) :
    node script w = ⟨[.print (colored "\n🐳 Docker Installation Check\n" .blue),
        .print (colored "Checking Docker installation..." .yellow),
        .execSync "docker --version" .ignore,
        .print (colored "✅ Docker is installed" .green),
        .execSync "docker compose version" .ignore,
        .print (if (w.exec "docker compose version" 0).isOk = true
          then colored "✅ Docker Compose is available" .green
          else colored "⚠️  Docker Compose not found (using docker-compose)" .yellow),
        .print (colored "\nChecking Docker daemon..." .yellow),
        .execSync "docker info" .ignore,
        .print (colored "✅ Docker is running" .green),
        .execSync "docker --version" .utf8]
        ++ (match w.exec "docker --version" 1 with
          | .ok version => [.print (colored ("\n📦 " ++ trim version) .cyan)]
          | .failed _ => [])
        ++ [.print (colored "\n✅ Docker is ready to use!" .green),
        .print (colored "\nYou can now run:" .yellow),
        .print (colored "  pnpm postgres:up    - Start PostgreSQL" .blue),
        .print (colored "  pnpm postgres:test  - Test PostgreSQL connection" .blue),
        .print (colored "\n" .reset)], 1⟩ := by
  cases hc : (w.exec "docker compose version" 0).isOk <;>
    cases hv : w.exec "docker --version" 1 <;>
    simp [node, script, main, checkDocker_apply, checkDockerCompose_apply,
      checkDockerRunning_apply, h0, h1, hc, hv, attempt, execSync, catchMethod]

/-- In every run where Docker is installed and running, `main` itself ends
normally with the value `undefined` after attempting the version query. -/
theorem main_ready (w : World) (h0 : (w.exec "docker --version" 0).isOk = true)
    (h1 : (w.exec "docker info" 0).isOk = true) :
    (main w []).1 = .ret .undefined ∧
      Event.execSync "docker --version" .utf8 ∈ (main w []).2 := by
  cases hc : (w.exec "docker compose version" 0).isOk <;>
    cases hv : w.exec "docker --version" 1 <;>
    simp [main, checkDocker_apply, checkDockerCompose_apply,
      checkDockerRunning_apply, h0, h1, hc, hv, attempt, execSync]

/-- In every run where Docker is installed and running, the program attempts
the version query and ends with exit code 1, whatever the compose probe and the
version query do. -/
theorem ready_exitCode (w : World) (h0 : (w.exec "docker --version" 0).isOk = true)
    (h1 : (w.exec "docker info" 0).isOk = true) :
    (node script w).exitCode = 1 ∧
      Event.execSync "docker --version" .utf8 ∈ (node script w).trace := by
  rw [run_ready w h0 h1]
  simp

/-- C1, the code at a run where both checks succeed: on `healthy` (Docker
installed and running, every command succeeding) the program runs the version
query, prints the final success banner, and terminates with exit code 1, not 0:
`main` is not `async`, so `main()` is `undefined` and `.catch` throws. -/
theorem healthy_run_exits_one :
    (healthy.exec "docker --version" 0).isOk = true ∧
    (healthy.exec "docker info" 0).isOk = true ∧
    (main healthy []).1 = .ret .undefined ∧
    Event.execSync "docker --version" .utf8 ∈ (node script healthy).trace ∧
    Event.print (colored "\n✅ Docker is ready to use!" .green) ∈ (node script healthy).trace ∧
    (node script healthy).exitCode = 1 := by
  refine ⟨rfl, rfl, rfl, ?_, ?_, rfl⟩ <;> decide

/-- C2: for every platform, when `checkDocker()` returns false (the first
`docker --version` fails) the program exits with code 1, the only command it
runs is `docker --version`, once, and neither `docker compose version` nor
`docker info` is in its trace. -/
theorem not_installed_exits_one (w : World)
    (h : (w.exec "docker --version" 0).isOk = false) :
    (node script w).exitCode = 1 ∧
    actions (node script w).trace = [.execSync "docker --version" .ignore] ∧
    calls "docker --version" (node script w).trace = 1 ∧
    (∀ io, Event.execSync "docker compose version" io ∉ (node script w).trace) ∧
    (∀ io, Event.execSync "docker info" io ∉ (node script w).trace) := by
  rw [run_notInstalled w h]
  simp [actions_map_print, calls, List.countP_map]

/-- Witness of C2: on `notInstalled` the installed-check fails. -/
theorem not_installed_exits_one_witness :
    (notInstalled.exec "docker --version" 0).isOk = false ∧
    (node script notInstalled).exitCode = 1 ∧
    actions (node script notInstalled).trace = [.execSync "docker --version" .ignore] ∧
    calls "docker --version" (node script notInstalled).trace = 1 ∧
    (∀ io, Event.execSync "docker compose version" io ∉ (node script notInstalled).trace) ∧
    (∀ io, Event.execSync "docker info" io ∉ (node script notInstalled).trace) :=
  ⟨rfl, not_installed_exits_one notInstalled rfl⟩

/-- C3: for every platform and either outcome of the compose probe, when
`checkDocker()` returns true and `checkDockerRunning()` returns false the
program exits with code 1, prints the three start hints (Windows, Mac, Linux)
one after the other, and does not run the final version query: `docker
--version` is run once, by the installed-check only. -/
theorem daemon_down_exits_one (w : World)
    (h0 : (w.exec "docker --version" 0).isOk = true)
    (h1 : (w.exec "docker info" 0).isOk = false) :
    (node script w).exitCode = 1 ∧
    (∃ before after, printed (node script w).trace = before ++
      [colored "  - Windows: Search for \"Docker Desktop\" in Start menu" .blue,
        colored "  - Mac: Open Docker from Applications" .blue,
        colored "  - Linux: sudo systemctl start docker" .blue] ++ after) ∧
    Event.execSync "docker --version" .utf8 ∉ (node script w).trace ∧
    calls "docker --version" (node script w).trace = 1 := by
  refine ⟨?_, ⟨(printed (node script w).trace).take 7,
    (printed (node script w).trace).drop 10, ?_⟩, ?_, ?_⟩ <;>
    rw [run_daemonDown w h0 h1] <;> simp

/-- Witness of C3: on `daemonDown` the installed-check succeeds and the
running-check fails. -/
theorem daemon_down_exits_one_witness :
    (daemonDown.exec "docker --version" 0).isOk = true ∧
    (daemonDown.exec "docker info" 0).isOk = false ∧
    (node script daemonDown).exitCode = 1 ∧
    (∃ before after, printed (node script daemonDown).trace = before ++
      [colored "  - Windows: Search for \"Docker Desktop\" in Start menu" .blue,
        colored "  - Mac: Open Docker from Applications" .blue,
        colored "  - Linux: sudo systemctl start docker" .blue] ++ after) ∧
    Event.execSync "docker --version" .utf8 ∉ (node script daemonDown).trace ∧
    calls "docker --version" (node script daemonDown).trace = 1 :=
  ⟨rfl, rfl, daemon_down_exits_one daemonDown rfl rfl⟩

/-- C4: `getInstallInstructions` is a total, effect-free and deterministic
function of the platform string returned by `os.platform()`: it returns the
Windows record for `win32`, the Mac record for `darwin`, the Linux record for
every other string, and the record returned always has a non-empty title, a
non-empty list of steps and a non-empty download URL. -/
theorem getInstallInstructions_total (w : World) (t : List Event) :
    ∃ r, getInstallInstructions w t = (.ret r, t) ∧
      (w.platform = "win32" → r = windowsInstructions) ∧
      (w.platform = "darwin" → r = macInstructions) ∧
      (w.platform ≠ "win32" → w.platform ≠ "darwin" → r = linuxInstructions) ∧
      r.title ≠ "" ∧ r.steps ≠ [] ∧ r.downloadUrl ≠ "" ∧
      ∀ (w2 : World) (t2 : List Event), w2.platform = w.platform →
        getInstallInstructions w2 t2 = (.ret r, t2) := by
  refine ⟨selectInstructions w.platform, rfl, ?_, ?_, ?_, ?_⟩
  · intro h
    simp [selectInstructions, h]
  · intro h
    simp [selectInstructions, h]
  · intro h1 h2
    simp [selectInstructions, h1, h2]
  · refine ⟨?_, ?_, ?_, ?_⟩
    · unfold selectInstructions
      split_ifs <;> decide
    · unfold selectInstructions
      split_ifs <;> decide
    · unfold selectInstructions
      split_ifs <;> decide
    · intro w2 t2 h
      simp [getInstallInstructions, h]

/-- Witness of C4: the records selected on `win32`, on `darwin`, on `linux` and
on the unrecognised platform `freebsd`. -/
theorem getInstallInstructions_total_witness :
    (getInstallInstructions notInstalled []).1 = .ret windowsInstructions ∧
    (getInstallInstructions daemonDown []).1 = .ret macInstructions ∧
    (getInstallInstructions healthy []).1 = .ret linuxInstructions ∧
    (getInstallInstructions freebsd []).1 = .ret linuxInstructions := by
  refine ⟨?_, ?_, ?_, ?_⟩
  · obtain ⟨r, hr, hw, _⟩ := getInstallInstructions_total notInstalled []
    rw [hr, hw rfl]
  · obtain ⟨r, hr, _, hm, _⟩ := getInstallInstructions_total daemonDown []
    rw [hr, hm rfl]
  · obtain ⟨r, hr, _, _, hl, _⟩ := getInstallInstructions_total healthy []
    rw [hr, hl (by decide) (by decide)]
  · obtain ⟨r, hr, _, _, hl, _⟩ := getInstallInstructions_total freebsd []
    rw [hr, hl (by decide) (by decide)]

end CheckDocker

/-! ## The connectivity tester -/

namespace TestPostgres
open Node

@[simp] theorem log_apply_pg (m : String) (c : Color) (w : World) (t : List Event) :
    log m c w t = (.ret (), t ++ [.print (colored m c)]) := rfl

/-- The call `checkDocker()` returns whether `docker --version` completed; it never
throws. -/
theorem checkDocker_apply_pg (w : World) (t : List Event) :
    checkDocker w t = (.ret (w.exec "docker --version" (calls "docker --version" t)).isOk,
      t ++ [.execSync "docker --version" .ignore]) :=
  probe_apply _ _ w t

/-- The call `checkPostgresRunning()` runs the status command once and returns what
`reportsRunning` makes of its result; it never throws. -/
theorem checkPostgresRunning_apply (w : World) (t : List Event) :
    checkPostgresRunning w t
      = (.ret (reportsRunning
          (w.exec "docker compose ps postgres" (calls "docker compose ps postgres" t))),
        t ++ [.execSync "docker compose ps postgres" .utf8]) := by
  unfold checkPostgresRunning attempt execSync
  cases h : w.exec "docker compose ps postgres" (calls "docker compose ps postgres" t) <;>
    simp [h, reportsRunning]

theorem reportsRunning_eq_true (r : ExecResult) :
    reportsRunning r = true ↔ ∃ out, r = .ok out ∧
      includes out "8no-ai-postgres" = true ∧ includes out "Up" = true := by
  cases r <;> simp [reportsRunning]

/-- The listeners only ever append to the two captured texts. -/
theorem foldl_onData (chunks : List ChildData) (acc : Capture) :
    chunks.foldl onData acc
      = ⟨acc.output ++ concat (ChildRun.stdoutChunks ⟨chunks, none⟩),
        acc.errorOutput ++ concat (ChildRun.stderrChunks ⟨chunks, none⟩)⟩ := by
  induction chunks generalizing acc with
  | nil => simp [ChildRun.stdoutChunks, ChildRun.stderrChunks, concat]
  | cons d ds ih =>
    cases d <;>
      simp [ih, onData, ChildRun.stdoutChunks, ChildRun.stderrChunks, concat,
        String.append_assoc] at *

theorem testConnection_apply (w : World) (t : List Event) :
    testConnection w t
      = (.ret ⟨w.child.code == some 0, concat w.child.stdoutChunks,
          concat w.child.stderrChunks⟩, t ++ [.spawn "docker" psqlArgs]) := by
  simp [testConnection, foldl_onData, onClose, ChildRun.stdoutChunks, ChildRun.stderrChunks]

/-- The whole run when the installed-check fails. -/
theorem run_noDocker (w : World) (h0 : (w.exec "docker --version" 0).isOk = false) :
    node script w = ⟨[.print (colored "\n🔍 PostgreSQL Connection Test\n" .blue),
        .print (colored "1. Checking Docker installation..." .yellow),
        .execSync "docker --version" .ignore,
        .print (colored "   ❌ Docker is not installed or not in PATH" .red),
        .print (colored "\n   Please run: pnpm postgres:check" .yellow),
        .print (colored "   This will show installation instructions.\n" .blue)], 1⟩ := by
  simp [node, script, main, async, mainBody, checkDocker_apply_pg, h0]

/-- The whole run when the first status check reports the container running. -/
theorem run_up (w : World) (h0 : (w.exec "docker --version" 0).isOk = true)
    (h1 : reportsRunning (w.exec "docker compose ps postgres" 0) = true) :
    node script w = ⟨[.print (colored "\n🔍 PostgreSQL Connection Test\n" .blue),
        .print (colored "1. Checking Docker installation..." .yellow),
        .execSync "docker --version" .ignore,
        .print (colored "   ✅ Docker is installed" .green),
        .print (colored "\n2. Checking PostgreSQL container status..." .yellow),
        .execSync "docker compose ps postgres" .utf8,
        .print (colored "   ✅ PostgreSQL container is running" .green),
        .print (colored "\n3. Testing database connection..." .yellow),
        .spawn "docker" psqlArgs] ++ report w.child,
      if w.child.code = some 0 then 0 else 1⟩ := by
  by_cases hc : w.child.code = some 0 <;>
    simp [node, script, main, async, mainBody, checkDocker_apply_pg,
      checkPostgresRunning_apply, testConnection_apply, catchMethod, h0, h1, hc, report,
      successReport, failureReport, connectionLines, troubleshootingLines, Prog.pure]

/-- The whole run when the first status check reports the container not
running and the start command throws. -/
theorem run_startFails (w : World) (h0 : (w.exec "docker --version" 0).isOk = true)
    (h1 : reportsRunning (w.exec "docker compose ps postgres" 0) = false)
    (message : String)
    (hu : w.exec "docker compose up -d postgres" 0 = .failed message) :
    node script w = ⟨[.print (colored "\n🔍 PostgreSQL Connection Test\n" .blue),
        .print (colored "1. Checking Docker installation..." .yellow),
        .execSync "docker --version" .ignore,
        .print (colored "   ✅ Docker is installed" .green),
        .print (colored "\n2. Checking PostgreSQL container status..." .yellow),
        .execSync "docker compose ps postgres" .utf8,
        .print (colored "   ⚠️  PostgreSQL container is not running" .yellow),
        .print (colored "   Attempting to start PostgreSQL..." .yellow),
        .execSync "docker compose up -d postgres" .inherit,
        .print (colored "   ❌ Error starting PostgreSQL" .red),
        .print (colored ("   " ++ message) .red)], 1⟩ := by
  simp [node, script, main, async, mainBody, checkDocker_apply_pg,
    checkPostgresRunning_apply, attempt, execSync, h0, h1, hu]

/-- The whole run when the container is reported not running before and after
a start command that completed. -/
theorem run_stillDown (w : World) (h0 : (w.exec "docker --version" 0).isOk = true)
    (h1 : reportsRunning (w.exec "docker compose ps postgres" 0) = false)
    (hu : (w.exec "docker compose up -d postgres" 0).isOk = true)
    (h2 : reportsRunning (w.exec "docker compose ps postgres" 1) = false) :
    node script w = ⟨[.print (colored "\n🔍 PostgreSQL Connection Test\n" .blue),
        .print (colored "1. Checking Docker installation..." .yellow),
        .execSync "docker --version" .ignore,
        .print (colored "   ✅ Docker is installed" .green),
        .print (colored "\n2. Checking PostgreSQL container status..." .yellow),
        .execSync "docker compose ps postgres" .utf8,
        .print (colored "   ⚠️  PostgreSQL container is not running" .yellow),
        .print (colored "   Attempting to start PostgreSQL..." .yellow),
        .execSync "docker compose up -d postgres" .inherit,
        .print (colored "   ⏳ Waiting for PostgreSQL to be ready..." .yellow),
        .setTimeout 5000,
        .execSync "docker compose ps postgres" .utf8,
        .print (colored "   ❌ Failed to start PostgreSQL" .red),
        .print (colored "   Try running: pnpm postgres:logs" .yellow)], 1⟩ := by
  cases hx : w.exec "docker compose up -d postgres" 0 with
  | failed m => simp [hx, ExecResult.isOk] at hu
  | ok out =>
    simp [node, script, main, async, mainBody, checkDocker_apply_pg,
      checkPostgresRunning_apply, attempt, execSync, h0, h1, hx, h2]

/-- The whole run when the container is reported running only after a start
command that completed. -/
theorem run_started (w : World) (h0 : (w.exec "docker --version" 0).isOk = true)
    (h1 : reportsRunning (w.exec "docker compose ps postgres" 0) = false)
    (hu : (w.exec "docker compose up -d postgres" 0).isOk = true)
    (h2 : reportsRunning (w.exec "docker compose ps postgres" 1) = true) :
    node script w = ⟨[.print (colored "\n🔍 PostgreSQL Connection Test\n" .blue),
        .print (colored "1. Checking Docker installation..." .yellow),
        .execSync "docker --version" .ignore,
        .print (colored "   ✅ Docker is installed" .green),
        .print (colored "\n2. Checking PostgreSQL container status..." .yellow),
        .execSync "docker compose ps postgres" .utf8,
        .print (colored "   ⚠️  PostgreSQL container is not running" .yellow),
        .print (colored "   Attempting to start PostgreSQL..." .yellow),
        .execSync "docker compose up -d postgres" .inherit,
        .print (colored "   ⏳ Waiting for PostgreSQL to be ready..." .yellow),
        .setTimeout 5000,
        .execSync "docker compose ps postgres" .utf8,
        .print (colored "   ✅ PostgreSQL container started" .green),
        .print (colored "\n3. Testing database connection..." .yellow),
        .spawn "docker" psqlArgs] ++ report w.child,
      if w.child.code = some 0 then 0 else 1⟩ := by
  cases hx : w.exec "docker compose up -d postgres" 0 with
  | failed m => simp [hx, ExecResult.isOk] at hu
  | ok out =>
    by_cases hc : w.child.code = some 0 <;>
      simp [node, script, main, async, mainBody, checkDocker_apply_pg,
        checkPostgresRunning_apply, testConnection_apply, attempt, execSync, catchMethod,
        h0, h1, hx, h2, hc, report, successReport, failureReport, connectionLines,
        troubleshootingLines, Prog.pure]

theorem actions_report (child : ChildRun) : actions (report child) = [] := by
  unfold report
  split_ifs <;> simp [successReport, failureReport, connectionLines, troubleshootingLines]

theorem calls_report (c : String) (child : ChildRun) : calls c (report child) = 0 := by
  unfold report
  split_ifs <;> simp [successReport, failureReport, connectionLines, troubleshootingLines]

/-- C5: `checkPostgresRunning()` runs `docker compose ps postgres` once and
returns (it never throws); it returns true exactly when the command completes
and its output has both `8no-ai-postgres` and `Up` as contiguous runs of
characters, and false otherwise, also when the command throws.  On the output
`8no-ai-postgres Exited (1)` it returns false. -/
theorem checkPostgresRunning_iff (w : World) (t : List Event) :
    ∃ b, checkPostgresRunning w t
        = (.ret b, t ++ [.execSync "docker compose ps postgres" .utf8]) ∧
      (b = true ↔ ∃ out,
        w.exec "docker compose ps postgres" (calls "docker compose ps postgres" t) = .ok out ∧
        (∃ pre post, out.toList = pre ++ "8no-ai-postgres".toList ++ post) ∧
        (∃ pre post, out.toList = pre ++ "Up".toList ++ post)) ∧
      ((∃ message, w.exec "docker compose ps postgres"
          (calls "docker compose ps postgres" t) = .failed message) → b = false) ∧
      (w.exec "docker compose ps postgres" (calls "docker compose ps postgres" t)
          = .ok "8no-ai-postgres Exited (1)" → b = false) := by
  refine ⟨_, checkPostgresRunning_apply w t, ?_, ?_, ?_⟩
  · rw [reportsRunning_eq_true]
    simp only [includes_iff]
  · rintro ⟨message, h⟩
    rw [h]
    rfl
  · intro h
    rw [h]
    decide

/-- Witness of C5: on `exited`, whose status output is
`8no-ai-postgres Exited (1)`, the check returns false. -/
theorem checkPostgresRunning_iff_witness :
    exited.exec "docker compose ps postgres" 0 = .ok "8no-ai-postgres Exited (1)" ∧
    checkPostgresRunning exited []
      = (.ret false, [.execSync "docker compose ps postgres" .utf8]) := by
  obtain ⟨b, hb, _, _, hx⟩ := checkPostgresRunning_iff exited []
  refine ⟨rfl, ?_⟩
  rw [hb, hx rfl]
  rfl

/-- C6: in every run where the installed-check succeeds and the first status
output has both `8no-ai-postgres` and `Up`, the actions of the run are exactly
the installed-check, one status check and the spawn of the query probe: the
start command is never issued, there is no wait, and the status check runs
once.  The output `... 8no-ai-postgres ... Up 3 minutes` has both tokens. -/
theorem running_container_not_started (w : World) (out : String)
    (h0 : (w.exec "docker --version" 0).isOk = true)
    (h1 : w.exec "docker compose ps postgres" 0 = .ok out)
    (hA : includes out "8no-ai-postgres" = true) (hB : includes out "Up" = true) :
    actions (node script w).trace
      = [.execSync "docker --version" .ignore, .execSync "docker compose ps postgres" .utf8,
        .spawn "docker" psqlArgs] ∧
    (∀ io, Event.execSync "docker compose up -d postgres" io ∉ (node script w).trace) ∧
    (∀ ms, Event.setTimeout ms ∉ (node script w).trace) ∧
    calls "docker compose ps postgres" (node script w).trace = 1 ∧
    includes "... 8no-ai-postgres ... Up 3 minutes" "8no-ai-postgres" = true ∧
    includes "... 8no-ai-postgres ... Up 3 minutes" "Up" = true := by
  have hr : reportsRunning (w.exec "docker compose ps postgres" 0) = true := by
    simp [h1, reportsRunning, hA, hB]
  have hmem : ∀ e, e ∈ (node script w).trace → e ∈ actions (node script w).trace ∨
      ∃ line, e = .print line := by
    intro e he
    cases e <;> simp [actions, he]
  have hact : actions (node script w).trace
      = [.execSync "docker --version" .ignore, .execSync "docker compose ps postgres" .utf8,
        .spawn "docker" psqlArgs] := by
    rw [run_up w h0 hr]
    simp [actions_report]
  refine ⟨hact, ?_, ?_, ?_, by decide, by decide⟩
  · intro io hin
    rcases hmem _ hin with h | ⟨line, h⟩
    · rw [hact] at h
      simp at h
    · cases h
  · intro ms hin
    rcases hmem _ hin with h | ⟨line, h⟩
    · rw [hact] at h
      simp at h
    · cases h
  · rw [run_up w h0 hr]
    simp [calls_report]

/-- Witness of C6: on `alreadyUp` the status output is
`... 8no-ai-postgres ... Up 3 minutes`. -/
theorem running_container_not_started_witness :
    alreadyUp.exec "docker compose ps postgres" 0
      = .ok "... 8no-ai-postgres ... Up 3 minutes" ∧
    actions (node script alreadyUp).trace
      = [.execSync "docker --version" .ignore, .execSync "docker compose ps postgres" .utf8,
        .spawn "docker" psqlArgs] :=
  ⟨rfl, (running_container_not_started alreadyUp "... 8no-ai-postgres ... Up 3 minutes"
    rfl rfl (by decide) (by decide)).1⟩

/-- C7 as stated fails: on `startFails` the installed-check succeeds and the
first status output (the empty text) is missing `8no-ai-postgres`, yet the
start command, which throws, is followed by no wait and no re-check: the
actions of the run are the installed-check, one status check and the start
command, and the exit code is 1. -/
theorem start_failure_has_no_wait :
    (startFails.exec "docker --version" 0).isOk = true ∧
    startFails.exec "docker compose ps postgres" 0 = .ok "" ∧
    includes "" "8no-ai-postgres" = false ∧
    actions (node script startFails).trace
      = [.execSync "docker --version" .ignore, .execSync "docker compose ps postgres" .utf8,
        .execSync "docker compose up -d postgres" .inherit] ∧
    Event.setTimeout 5000 ∉ (node script startFails).trace ∧
    calls "docker compose ps postgres" (node script startFails).trace = 1 ∧
    (node script startFails).exitCode = 1 := by
  refine ⟨rfl, rfl, rfl, ?_, ?_, ?_, rfl⟩ <;> decide

/-- C7, amended: in every run where the installed-check succeeds and the first
status output is missing `8no-ai-postgres` or missing `Up`, the start command
is issued once, right after the status check.  If it throws, nothing follows
it and the exit code is 1.  If it completes, it is followed by one wait of
5000 ms and one re-run of the status check, after which the only possible
action is the spawn of the query probe; and if the re-check does not report
the container running, nothing follows the re-check and the exit code is 1. -/
theorem stopped_container_started_once (w : World) (out : String)
    (h0 : (w.exec "docker --version" 0).isOk = true)
    (h1 : w.exec "docker compose ps postgres" 0 = .ok out)
    (hm : includes out "8no-ai-postgres" = false ∨ includes out "Up" = false) :
    ((w.exec "docker compose up -d postgres" 0).isOk = false →
      actions (node script w).trace
        = [.execSync "docker --version" .ignore,
          .execSync "docker compose ps postgres" .utf8,
          .execSync "docker compose up -d postgres" .inherit] ∧
      (node script w).exitCode = 1) ∧
    ((w.exec "docker compose up -d postgres" 0).isOk = true →
      (∃ rest, (rest = [] ∨ rest = [.spawn "docker" psqlArgs]) ∧
        actions (node script w).trace
          = [.execSync "docker --version" .ignore,
            .execSync "docker compose ps postgres" .utf8,
            .execSync "docker compose up -d postgres" .inherit,
            .setTimeout 5000,
            .execSync "docker compose ps postgres" .utf8] ++ rest) ∧
      ((¬ ∃ out2, w.exec "docker compose ps postgres" 1 = .ok out2 ∧
          includes out2 "8no-ai-postgres" = true ∧ includes out2 "Up" = true) →
        actions (node script w).trace
          = [.execSync "docker --version" .ignore,
            .execSync "docker compose ps postgres" .utf8,
            .execSync "docker compose up -d postgres" .inherit,
            .setTimeout 5000,
            .execSync "docker compose ps postgres" .utf8] ∧
        (node script w).exitCode = 1)) := by
  have hr : reportsRunning (w.exec "docker compose ps postgres" 0) = false := by
    rcases hm with h | h <;> simp [h1, reportsRunning, h]
  refine ⟨?_, ?_⟩
  · intro hu
    cases hx : w.exec "docker compose up -d postgres" 0 with
    | ok o => simp [hx, ExecResult.isOk] at hu
    | failed message =>
      rw [run_startFails w h0 hr message hx]
      simp
  · intro hu
    cases h2 : reportsRunning (w.exec "docker compose ps postgres" 1) with
    | false =>
      rw [run_stillDown w h0 hr hu h2]
      refine ⟨⟨[], Or.inl rfl, by simp⟩, fun _ => ⟨by simp, rfl⟩⟩
    | true =>
      rw [run_started w h0 hr hu h2]
      refine ⟨⟨[.spawn "docker" psqlArgs], Or.inr rfl, by simp [actions_report]⟩, ?_⟩
      intro hn
      exact absurd ((reportsRunning_eq_true _).1 h2) hn

/-- Witness of C7, amended: on `exited` the first status output
`8no-ai-postgres Exited (1)` is missing `Up`, the start command completes and
the re-check still does not report the container running. -/
theorem stopped_container_started_once_witness :
    (exited.exec "docker --version" 0).isOk = true ∧
    exited.exec "docker compose ps postgres" 0 = .ok "8no-ai-postgres Exited (1)" ∧
    includes "8no-ai-postgres Exited (1)" "Up" = false ∧
    (exited.exec "docker compose up -d postgres" 0).isOk = true ∧
    actions (node script exited).trace
      = [.execSync "docker --version" .ignore,
        .execSync "docker compose ps postgres" .utf8,
        .execSync "docker compose up -d postgres" .inherit,
        .setTimeout 5000,
        .execSync "docker compose ps postgres" .utf8] ∧
    (node script exited).exitCode = 1 :=
  ⟨rfl, rfl, by decide, rfl,
    ((stopped_container_started_once exited "8no-ai-postgres Exited (1)" rfl rfl
      (Or.inr (by decide))).2 rfl).2 (by
        rintro ⟨out2, h, _, hUp⟩
        cases h
        exact absurd hUp (by decide))⟩

/-- C8: for every sequence of chunks and every close code delivered by the
child, the awaited `testConnection()` resolves (it returns, and neither throws
nor exits) with a record whose `success` is true exactly when the close code
is 0, whose `output` is the concatenation of the stdout chunks in arrival
order and whose `error` is the concatenation of the stderr chunks in arrival
order; `success` is the same for any other chunks with the same close code. -/
theorem testConnection_resolves (w : World) (t : List Event) :
    ∃ r, testConnection w t = (.ret r, t ++ [.spawn "docker" psqlArgs]) ∧
      (r.success = true ↔ w.child.code = some 0) ∧
      r.output = concat w.child.stdoutChunks ∧
      r.error = concat w.child.stderrChunks ∧
      ∀ (chunks : List ChildData) (t2 : List Event),
        (testConnection { w with child := ⟨chunks, w.child.code⟩ } t2).1
          = .ret ⟨r.success, concat (ChildRun.stdoutChunks ⟨chunks, w.child.code⟩),
              concat (ChildRun.stderrChunks ⟨chunks, w.child.code⟩)⟩ := by
  refine ⟨_, testConnection_apply w t, by simp, rfl, rfl, ?_⟩
  intro chunks t2
  rw [testConnection_apply]

/-- C9: for every combination of probe outcomes the exit code is 0 or 1, and
it is 0 exactly when the installed-check succeeds, the container is reported
running by the first status check or, after a start command that did not
throw, by the re-check, and the query child closes with code 0.  When the
installed-check fails, the installed-check is the only action of the run: no
status check, start command or query probe. -/
theorem exit_code_iff (w : World) :
    ((node script w).exitCode = 0 ↔
      (w.exec "docker --version" 0).isOk = true ∧
      ((∃ out, w.exec "docker compose ps postgres" 0 = .ok out ∧
          includes out "8no-ai-postgres" = true ∧ includes out "Up" = true) ∨
        ((w.exec "docker compose up -d postgres" 0).isOk = true ∧
          ∃ out, w.exec "docker compose ps postgres" 1 = .ok out ∧
            includes out "8no-ai-postgres" = true ∧ includes out "Up" = true)) ∧
      w.child.code = some 0) ∧
    ((node script w).exitCode = 0 ∨ (node script w).exitCode = 1) ∧
    ((w.exec "docker --version" 0).isOk = false →
      actions (node script w).trace = [.execSync "docker --version" .ignore]) := by
  simp only [← reportsRunning_eq_true]
  cases h0 : (w.exec "docker --version" 0).isOk with
  | false =>
    rw [run_noDocker w h0]
    simp
  | true =>
    cases h1 : reportsRunning (w.exec "docker compose ps postgres" 0) with
    | true =>
      rw [run_up w h0 h1]
      by_cases hc : w.child.code = some 0 <;> simp [hc]
    | false =>
      cases hx : w.exec "docker compose up -d postgres" 0 with
      | failed message =>
        rw [run_startFails w h0 h1 message hx]
        simp [ExecResult.isOk]
      | ok o =>
        have hu : (w.exec "docker compose up -d postgres" 0).isOk = true := by
          simp [hx, ExecResult.isOk]
        cases h2 : reportsRunning (w.exec "docker compose ps postgres" 1) with
        | false =>
          rw [run_stillDown w h0 h1 hu h2]
          simp
        | true =>
          rw [run_started w h0 h1 hu h2]
          by_cases hc : w.child.code = some 0 <;> simp [hc, ExecResult.isOk]

/-- Witness of C9: on `noDocker` the installed-check fails, the exit code is 1
and the installed-check is the only action. -/
theorem exit_code_iff_witness :
    (noDocker.exec "docker --version" 0).isOk = false ∧
    (node script noDocker).exitCode = 1 ∧
    actions (node script noDocker).trace = [.execSync "docker --version" .ignore] :=
  ⟨rfl, rfl, (exit_code_iff noDocker).2.2 rfl⟩

/-- C10: in every run that spawns the query child, with `s` the captured
standard output and `e` the captured standard error: when the child closes with
code 0 the printed lines contain the line `s` and, after it, the five
connection-parameter lines one after the other; when it closes otherwise the
printed lines contain the line `   Error: e` (in red) and, after it, the three
troubleshooting lines one after the other, and the exit code is 1. -/
theorem report_contents (w : World) (s e : String)
    (hs : concat w.child.stdoutChunks = s) (he : concat w.child.stderrChunks = e)
    (hp : Event.spawn "docker" psqlArgs ∈ (node script w).trace) :
    (w.child.code = some 0 →
      ∃ before between after, printed (node script w).trace
        = before ++ [s] ++ between ++
          [colored "  Host: localhost" .blue, colored "  Port: 5432" .blue,
            colored "  Database: 8noai_db" .blue, colored "  Username: postgres" .blue,
            colored "  Password: postgres" .blue] ++ after) ∧
    (w.child.code ≠ some 0 →
      (∃ before between after, printed (node script w).trace
        = before ++ [colors .red ++ ("   Error: " ++ e) ++ colors .reset] ++ between ++
          [colored "   1. Check logs: pnpm postgres:logs" .yellow,
            colored "   2. Restart: pnpm postgres:restart" .yellow,
            colored "   3. Check status: pnpm postgres:status\n" .yellow] ++ after) ∧
      (node script w).exitCode = 1) := by
  subst hs he
  cases h0 : (w.exec "docker --version" 0).isOk with
  | false =>
    rw [run_noDocker w h0] at hp
    simp at hp
  | true =>
    cases h1 : reportsRunning (w.exec "docker compose ps postgres" 0) with
    | true =>
      refine ⟨fun hc => ⟨(printed (node script w).trace).take 8,
          ((printed (node script w).trace).drop 9).take 2,
          (printed (node script w).trace).drop 16, ?_⟩,
        fun hc => ⟨⟨(printed (node script w).trace).take 7,
          ((printed (node script w).trace).drop 8).take 1,
          (printed (node script w).trace).drop 12, ?_⟩, ?_⟩⟩ <;>
        rw [run_up w h0 h1] <;>
        simp [hc, report, successReport, failureReport, connectionLines,
          troubleshootingLines, colored]
    | false =>
      cases hx : w.exec "docker compose up -d postgres" 0 with
      | failed message =>
        rw [run_startFails w h0 h1 message hx] at hp
        simp at hp
      | ok o =>
        have hu : (w.exec "docker compose up -d postgres" 0).isOk = true := by
          simp [hx, ExecResult.isOk]
        cases h2 : reportsRunning (w.exec "docker compose ps postgres" 1) with
        | false =>
          rw [run_stillDown w h0 h1 hu h2] at hp
          simp at hp
        | true =>
          refine ⟨fun hc => ⟨(printed (node script w).trace).take 11,
              ((printed (node script w).trace).drop 12).take 2,
              (printed (node script w).trace).drop 19, ?_⟩,
            fun hc => ⟨⟨(printed (node script w).trace).take 10,
              ((printed (node script w).trace).drop 11).take 1,
              (printed (node script w).trace).drop 15, ?_⟩, ?_⟩⟩ <;>
            rw [run_started w h0 h1 hu h2] <;>
            simp [hc, report, successReport, failureReport, connectionLines,
              troubleshootingLines, colored]

/-- Witness of C10: on `alreadyUp` the child writes `PostgreSQL 15.2 ...` and
closes with code 0; on `authFails` it writes
`FATAL: password authentication failed` on its standard error, in two chunks,
and closes with code 1. -/
theorem report_contents_witness :
    (Event.spawn "docker" psqlArgs ∈ (node script alreadyUp).trace ∧
      alreadyUp.child.code = some 0 ∧
      ∃ before between after, printed (node script alreadyUp).trace
        = before ++ ["PostgreSQL 15.2 ..."] ++ between ++
          [colored "  Host: localhost" .blue, colored "  Port: 5432" .blue,
            colored "  Database: 8noai_db" .blue, colored "  Username: postgres" .blue,
            colored "  Password: postgres" .blue] ++ after) ∧
    (Event.spawn "docker" psqlArgs ∈ (node script authFails).trace ∧
      authFails.child.code = some 1 ∧
      (∃ before between after, printed (node script authFails).trace
        = before ++ [colors .red ++ ("   Error: " ++ "FATAL: password authentication failed")
            ++ colors .reset] ++ between ++
          [colored "   1. Check logs: pnpm postgres:logs" .yellow,
            colored "   2. Restart: pnpm postgres:restart" .yellow,
            colored "   3. Check status: pnpm postgres:status\n" .yellow] ++ after) ∧
      (node script authFails).exitCode = 1) :=
  ⟨⟨by decide, rfl,
      (report_contents alreadyUp "PostgreSQL 15.2 ..." "" rfl rfl (by decide)).1 rfl⟩,
    ⟨by decide, rfl,
      (report_contents authFails "" "FATAL: password authentication failed" rfl rfl
        (by decide)).2 (by decide)⟩⟩

end TestPostgres
